import Mathlib

/-!
Shallow embedding of the travel-guide agent repository: the weather adapter
(`Fastapi/llm_tools/weather_tool.py`, `get_weather` in `Fastapi/agent/agent.py`),
the place-search adapter (`main/llm_tools/googleapi_tool.py`), the event-scrape
adapter (`main/llm_tools/event_tools.py`) and the LangGraph decision loop
(`Fastapi/agent/agent.py`).  External collaborators (HTTP responses, the scraper
and the summarizer) are modelled as explicit outcome values handed to the
embedded functions, so every function is a pure, executable translation of the
corresponding Python code.
-/

namespace TravelGuide

/-! ### Python `dict` as an association list

`lookupA` returns the first binding of a key, `insertA` replaces the first
binding (or appends a new one), which matches CPython dict semantics: an
assignment to an existing key overwrites its value in place and keeps the
iteration order, a new key is appended at the end. -/

def lookupA {α : Type} : List (String × α) → String → Option α
  | [], _ => none
  | (k, v) :: rest, key => if k = key then some v else lookupA rest key

def insertA {α : Type} : List (String × α) → String → α → List (String × α)
  | [], key, v => [(key, v)]
  | (k, w) :: rest, key, v =>
    if k = key then (key, v) :: rest else (k, w) :: insertA rest key v

theorem lookupA_insertA_self {α : Type} (l : List (String × α)) (k : String) (v : α) :
    lookupA (insertA l k v) k = some v := by
  induction l with
  | nil => simp [insertA, lookupA]
  | cons p rest ih =>
    by_cases h : p.1 = k
    · simp [insertA, h, lookupA]
    · simp [insertA, h, lookupA, ih]

theorem lookupA_insertA_ne {α : Type} (l : List (String × α)) (k k2 : String) (v : α)
    (h : k ≠ k2) : lookupA (insertA l k v) k2 = lookupA l k2 := by
  induction l with
  | nil => simp [insertA, lookupA, h]
  | cons p rest ih =>
    by_cases hp : p.1 = k
    · simp [insertA, hp, lookupA, h]
    · simp [insertA, hp, lookupA, ih]

theorem lookupA_eq_none {α : Type} (l : List (String × α)) (k : String)
    (h : k ∉ l.map Prod.fst) : lookupA l k = none := by
  induction l with
  | nil => rfl
  | cons p rest ih =>
    obtain ⟨k1, v1⟩ := p
    simp only [List.map_cons, List.mem_cons] at h
    push_neg at h
    simp only [lookupA]
    rw [if_neg (fun hh => h.1 hh.symm)]
    exact ih h.2

/-! ### `interpret_weather_code` (weather_tool.py, lines 4-35)

The Python function looks the code up in a literal dict with default
`Unknown weather condition`; a missing code arrives as `None`, which is
never a key, hence also maps to the default. -/

def weatherConditions : List (Nat × String) :=
  [(0, "Clear sky"), (1, "Mainly clear"), (2, "Partly cloudy"), (3, "Overcast"),
   (45, "Fog"), (48, "Depositing rime fog"),
   (51, "Light drizzle"), (53, "Moderate drizzle"), (55, "Dense drizzle"),
   (56, "Light freezing drizzle"), (57, "Dense freezing drizzle"),
   (61, "Slight rain"), (63, "Moderate rain"), (65, "Heavy rain"),
   (66, "Light freezing rain"), (67, "Heavy freezing rain"),
   (71, "Slight snow fall"), (73, "Moderate snow fall"), (75, "Heavy snow fall"),
   (77, "Snow grains"),
   (80, "Slight rain showers"), (81, "Moderate rain showers"), (82, "Violent rain showers"),
   (85, "Slight snow showers"), (86, "Heavy snow showers"),
   (95, "Thunderstorm"), (96, "Thunderstorm with slight hail"),
   (99, "Thunderstorm with heavy hail")]

def lookupCode : List (Nat × String) → Nat → Option String
  | [], _ => none
  | (k, v) :: rest, c => if c = k then some v else lookupCode rest c

def interpret_weather_code : Option Nat → String
  | none => "Unknown weather condition"
  | some c => (lookupCode weatherConditions c).getD "Unknown weather condition"

theorem lookupCode_eq_none (l : List (Nat × String)) (c : Nat)
    (h : c ∉ l.map Prod.fst) : lookupCode l c = none := by
  induction l with
  | nil => rfl
  | cons p rest ih =>
    simp only [List.map_cons, List.mem_cons] at h
    push_neg at h
    simp [lookupCode, h.1, ih h.2]

/-! ### `get_weather` (agent.py, lines 63-95)

The tool performs one `requests.get` (which can raise a transport exception),
then immediately calls `response.json()` (which can raise on a malformed body),
and only then branches on the status code.  Raised exceptions are modelled as
`Except.error`; the function has no try/except of its own. -/

structure CurrentWeather where
  time : Option String
  temperature : Option Int
  windspeed : Option Int
  winddirection : Option Int
  weathercode : Option Nat
  is_day : Option Nat
deriving DecidableEq

structure WeatherJson where
  current_weather : Option CurrentWeather
  error : Option String
deriving DecidableEq

inductive WeatherBody where
  | malformed (e : String)
  | parsed (w : WeatherJson)
deriving DecidableEq

inductive WeatherHttpOutcome where
  | raised (e : String)
  | response (status : Nat) (body : WeatherBody)
deriving DecidableEq

structure WeatherRecord where
  time_observed : Option String
  temperature_celsius : Option Int
  windspeed_kmh : Option Int
  wind_direction_degrees : Option Int
  weather_description : String
  is_day : Bool
deriving DecidableEq

inductive WeatherReturn where
  | success (r : WeatherRecord)
  | errorPayload (error : String) (status_code : Nat)
deriving DecidableEq

def emptyCurrentWeather : CurrentWeather := ⟨none, none, none, none, none, none⟩

def get_weather (o : WeatherHttpOutcome) : Except String WeatherReturn :=
  match o with
  | .raised e => .error e
  | .response status body =>
    match body with
    | .malformed e => .error e
    | .parsed w =>
      if status = 200 then
        let cw := w.current_weather.getD emptyCurrentWeather
        .ok (.success ⟨cw.time, cw.temperature, cw.windspeed, cw.winddirection,
          interpret_weather_code cw.weathercode, cw.is_day == some 1⟩)
      else
        .ok (.errorPayload (w.error.getD "Unknown error") status)

/-! ### Messages, tool registry and the decision loop (agent.py, lines 222-340)

`tools = [nearby_place_search, get_weather, get_detailed_events_tool,
get_available_event_categories, web_search]` and
`tools_by_name = {tool.name: tool for tool in tools}`.  `tool_node` looks each
requested name up with `tools_by_name[name]` — a plain dict subscript, which
raises `KeyError` for an unregistered name — then calls `tool.invoke`, whose
own exceptions also propagate.  Tool invocation is abstracted as a function
`invoke : name → args → Except String String` (error = raised exception);
message payloads are abstracted as strings. -/

inductive Role where
  | system
  | user
  | assistant
  | tool
deriving DecidableEq

structure ToolCall where
  id : String
  name : String
  args : String
deriving DecidableEq

structure Message where
  role : Role
  content : String
  tool_calls : List ToolCall
  tool_call_id : Option String
deriving DecidableEq

def registeredToolNames : List String :=
  ["nearby_place_search", "get_weather", "get_detailed_events_tool",
   "get_available_event_categories", "web_search"]

def toolMessage (content : String) (callId : String) : Message :=
  ⟨Role.tool, content, [], some callId⟩

def runToolCalls (invoke : String → String → Except String String) :
    List ToolCall → Except String (List Message)
  | [] => .ok []
  | c :: rest =>
    if c.name ∈ registeredToolNames then
      match invoke c.name c.args with
      | .error e => .error e
      | .ok obs =>
        match runToolCalls invoke rest with
        | .error e => .error e
        | .ok msgs => .ok (toolMessage obs c.id :: msgs)
    else
      .error ("KeyError: " ++ c.name)

def tool_node (invoke : String → String → Except String String)
    (messages : List Message) : Except String (List Message) :=
  match messages.getLast? with
  | none => .error "IndexError: messages is empty"
  | some m => runToolCalls invoke m.tool_calls

inductive Route where
  | action
  | stop
deriving DecidableEq

def should_continue (messages : List Message) : Option Route :=
  match messages.getLast? with
  | none => none
  | some m => if m.tool_calls.isEmpty then some Route.stop else some Route.action

structure AgentOutcome where
  messages : List Message
  finalReply : String
deriving DecidableEq

def agentRun (llm : List Message → Message)
    (invoke : String → String → Except String String) :
    Nat → List Message → Except String AgentOutcome
  | 0, _ => .error "recursion limit reached"
  | fuel + 1, state =>
    let am := llm state
    let s2 := state ++ [am]
    if am.tool_calls.isEmpty then .ok ⟨s2, am.content⟩
    else
      match tool_node invoke s2 with
      | .error e => .error e
      | .ok msgs => agentRun llm invoke fuel (s2 ++ msgs)

/-! ### `TravelAssistant.find_nearby_places` (googleapi_tool.py, lines 24-290)

External calls are modelled as outcome values: the nearby search (the result of
`_make_request`, already folded over its 3-attempt retry loop), the per-place
detail fetch (`_fetch_place_details` catches its own faults and yields `{}`,
and the `future.result()` loop catches again, so a failure is one constructor),
the distance-matrix response, and the review summarizer.  Coordinates are kept
as integers; only their Python truthiness (`location.get(lat) and
location.get(lng)`) matters to the control flow. -/

structure RawPlace where
  name : Option String
  rating : Option Int
  price_level : Option Int
  place_id : Option String
deriving DecidableEq

inductive SearchOutcome where
  | raised (e : String)
  | ok (results : List RawPlace)
deriving DecidableEq

structure RawLoc where
  lat : Option Int
  lng : Option Int
deriving DecidableEq

structure PlaceDetails where
  reviews : List String
  editorial_overview : Option String
  location : Option RawLoc
  dine_in : Option Bool
deriving DecidableEq

def emptyDetails : PlaceDetails := ⟨[], none, none, none⟩

inductive DetailFetchOutcome where
  | ok (d : PlaceDetails)
  | failed
deriving DecidableEq

def detailsOf : DetailFetchOutcome → PlaceDetails
  | .ok d => d
  | .failed => emptyDetails

structure DistElement where
  status : Option String
  distance : Option String
deriving DecidableEq

inductive DistanceOutcome where
  | raised (e : String)
  | result (status : String) (rows : List (List DistElement))
deriving DecidableEq

structure SummarizerWorld where
  available : Bool
  stopword_filter : Option (String → String)
  lsa : String → Option String

structure NearbyWorld where
  search : SearchOutcome
  detail : String → DetailFetchOutcome
  distance : DistanceOutcome
  summarizer : SummarizerWorld

structure BasicInfo where
  name : String
  rating : Option Int
  price_level : Option Int
  place_id : Option String
deriving DecidableEq

structure PlaceInfo where
  name : String
  rating : Option Int
  price_level : Option Int
  place_id : Option String
  maps_link : Option String
  distance : String
  dine_in : Option Bool
  description : Option String
  coordinates : Option RawLoc
  review_count : Nat
  review_summary : String
deriving DecidableEq

inductive NearbyReturn where
  | errorPayload (error : String)
  | success (places : List PlaceInfo)
deriving DecidableEq

/-- Model of `_get_unique_names` (lines 59-72): a running count per name; a repeated
name gets an occurrence-counter suffix. -/
def getUniqueNamesAux : List String → List (String × Nat) → List String
  | [], _ => []
  | n :: rest, counts =>
    match lookupA counts n with
    | none => n :: getUniqueNamesAux rest (insertA counts n 1)
    | some k =>
      (n ++ " (" ++ toString (k + 1) ++ ")") :: getUniqueNamesAux rest (insertA counts n (k + 1))

def getUniqueNames (names : List String) : List String := getUniqueNamesAux names []

/-- Step 3 (lines 176-191): futures are submitted for every `(place_id, name)`
pair with a truthy `place_id`; each completion stores its details (or `{}` on
failure) into the `place_details` dict under the display name.  Completion
order is modelled as submission order. -/
def buildPDAux (dw : String → DetailFetchOutcome) :
    List (String × PlaceDetails) → List (Option String × String) → List (String × PlaceDetails)
  | acc, [] => acc
  | acc, (pid, name) :: rest =>
    buildPDAux dw
      (match pid with
       | some p => if p = "" then acc else insertA acc name (detailsOf (dw p))
       | none => acc) rest

def buildPlaceDetails (dw : String → DetailFetchOutcome)
    (pairs : List (Option String × String)) : List (String × PlaceDetails) :=
  buildPDAux dw [] pairs

def truthyInt : Option Int → Bool
  | none => false
  | some v => v != 0

/-- Step 4 entry collection (lines 194-200): `valid_coords[name] = location`
for every unique name whose details carry a truthy lat and lng.  A duplicate
display name would re-assign the identical looked-up value, so it is skipped. -/
def vcStep (pd : List (String × PlaceDetails)) (acc : List (String × RawLoc))
    (name : String) : List (String × RawLoc) :=
  match ((lookupA pd name).getD emptyDetails).location with
  | some loc =>
    if truthyInt loc.lat && truthyInt loc.lng then
      if acc.any (fun p => p.1 == name) then acc else acc ++ [(name, loc)]
    else acc
  | none => acc

def buildValidCoords (pd : List (String × PlaceDetails)) (names : List String) :
    List (String × RawLoc) :=
  names.foldl (vcStep pd) []

def elementText (e : DistElement) : String :=
  match e.distance with
  | some t =>
    if e.status == some "OK" then t
    else "Distance unavailable (" ++ e.status.getD "unknown error" ++ ")"
  | none => "Distance unavailable (" ++ e.status.getD "unknown error" ++ ")"

def matchDistances : List String → List DistElement → List (String × String)
  | [], _ => []
  | n :: ns, [] => (n, "Distance unavailable (no data)") :: matchDistances ns []
  | n :: ns, e :: es => (n, elementText e) :: matchDistances ns es

/-- Step 4 (lines 202-242): one batched distance-matrix call; a raised request,
a non-OK status or an empty `rows` all fall into the exception handler that
maps every valid name to `"Distance unavailable"`; otherwise elements of
`rows[0]` are matched positionally to the valid names. -/
def computeDistances (w : DistanceOutcome) (vc : List (String × RawLoc)) :
    List (String × String) :=
  if vc.isEmpty then []
  else
    match w with
    | .raised _ => vc.map (fun p => (p.1, "Distance unavailable"))
    | .result status rows =>
      if status = "OK" then
        match rows with
        | [] => vc.map (fun p => (p.1, "Distance unavailable"))
        | row :: _ => matchDistances (vc.map Prod.fst) row
      else vc.map (fun p => (p.1, "Distance unavailable"))

def reviewsOf (pd : List (String × PlaceDetails)) (name : String) : List String :=
  (((lookupA pd name).getD emptyDetails).reviews).filter (fun r => r ≠ "")

/-- Step 5 review extraction (lines 245-253): non-empty review texts per name. -/
def reviewsByPlace (pd : List (String × PlaceDetails)) (names : List String) :
    List (String × List String) :=
  names.foldl (fun acc name => insertA acc name (reviewsOf pd name)) []

def mapsLink : Option String → Option String
  | none => none
  | some p =>
    if p = "" then none else some ("https://www.google.com/maps?q=place_id:" ++ p)

/-- Step 5 record assembly (lines 255-268). -/
def buildFinalResults (pd : List (String × PlaceDetails))
    (dists : List (String × String)) (rbp : List (String × List String))
    (pairs : List (BasicInfo × String)) : List PlaceInfo :=
  pairs.map fun pr =>
    let details := (lookupA pd pr.2).getD emptyDetails
    { name := pr.2
      rating := pr.1.rating
      price_level := pr.1.price_level
      place_id := pr.1.place_id
      maps_link := mapsLink pr.1.place_id
      distance := (lookupA dists pr.2).getD "Distance unavailable"
      dine_in := details.dine_in
      description := details.editorial_overview
      coordinates := details.location
      review_count := ((lookupA rbp pr.2).getD []).length
      review_summary := "" }

/-- Model of `_summarize_reviews` for one place (lines 74-119): without the optional
libraries the first two reviews are joined; a raised stopword setup falls back
to the first review; otherwise the filtered text goes through the summarizer,
whose own failure falls back to the first review. -/
def summOne (sw : SummarizerWorld) (reviews : List String) : String :=
  if !sw.available then
    if reviews.isEmpty then "No reviews available"
    else String.intercalate " " (reviews.take 2)
  else
    match sw.stopword_filter with
    | none => String.intercalate " " (reviews.take 1)
    | some filt =>
      if reviews.isEmpty then "No reviews available"
      else
        let all := String.intercalate " " (reviews.filter (fun r => r ≠ ""))
        if all.trim = "" then "No reviews available"
        else
          match sw.lsa (filt all) with
          | none => if reviews.headD "" ≠ "" then reviews.headD "" else "No reviews available"
          | some t => if t.trim = "" then "Unable to summarize reviews" else t

def summarizeReviews (sw : SummarizerWorld) (rbp : List (String × List String)) :
    List (String × String) :=
  rbp.map (fun p => (p.1, summOne sw p.2))

/-- Steps 3-6 of `find_nearby_places` (parallel detail fetch, distance batch,
record assembly and summary attachment), over the extracted basic info, place
ids and de-duplicated names. -/
def assemblePlaces (w : NearbyWorld) (basic_info : List BasicInfo)
    (place_ids : List (Option String)) (unique_names : List String) : List PlaceInfo :=
  let place_details := buildPlaceDetails w.detail (place_ids.zip unique_names)
  let valid_coords := buildValidCoords place_details unique_names
  let distances := computeDistances w.distance valid_coords
  let rbp := reviewsByPlace place_details unique_names
  let finals := buildFinalResults place_details distances rbp (basic_info.zip unique_names)
  let summaries := summarizeReviews w.summarizer rbp
  finals.map (fun pi =>
    { pi with review_summary := (lookupA summaries pi.name).getD "No reviews available" })

/-- Steps 2-6 of `find_nearby_places` on a non-empty truncated result list:
basic info extraction, name de-duplication, then `assemblePlaces`. -/
def nearbyPlacesList (w : NearbyWorld) (places : List RawPlace) : List PlaceInfo :=
  let basic_info : List BasicInfo :=
    places.map (fun p => ⟨p.name.getD "Unknown", p.rating, p.price_level, p.place_id⟩)
  let place_ids := places.map (fun p => p.place_id)
  let unique_names := getUniqueNames (basic_info.map (fun b => b.name))
  assemblePlaces w basic_info place_ids unique_names

/-- Model of `find_nearby_places` (lines 121-290).  The returned `output_data` also
echoes the search parameters with a wall-clock timestamp; only its `places`
list is modelled.  A raised nearby search is re-raised with a wrapped message;
an empty (truncated) result list returns the error payload dict. -/
def find_nearby_places (w : NearbyWorld) (lat lng : Int) (topics : String)
    (radius : Nat) (max_places : Nat) (open_now : Bool) : Except String NearbyReturn :=
  match w.search with
  | .raised e => .error ("Failed to search for nearby places: " ++ e)
  | .ok results =>
    let places := results.take max_places
    if places.isEmpty then .ok (.errorPayload "No places found matching your criteria")
    else .ok (.success (nearbyPlacesList w places))

/-- The `nearby_place_search` tool wrapper (agent.py, lines 29-61): a missing
or empty `GOOGLE_API` credential and any exception raised by the assistant are
both converted into error payloads. -/
def nearby_place_search (api_key : Option String) (w : NearbyWorld) (lat lng : Int)
    (topics : String) (radius : Nat) (max_places : Nat) (open_now : Bool) : NearbyReturn :=
  if api_key.getD "" = "" then
    .errorPayload "Google API key not found in environment variables"
  else
    match find_nearby_places w lat lng topics radius max_places open_now with
    | .error e => .errorPayload ("Failed to search nearby places: " ++ e)
    | .ok r => r

/-! ### `EventScraperTool` (event_tools.py)

`_CITY_CACHE` is a process-wide dict keyed by `f"{city.lower()}_{epoch}"`
where `epoch = int(time.time() // 3600)`; the wall clock enters the model as
the `epoch` argument.  `_scrape_city_events` catches its own faults (returning
the events gathered so far) and is modelled as the collaborator function
`scrape : city → events-by-category`.  Each embedded operation returns the
result together with the cache after the call and the number of scrapes the
call performed. -/

structure Event where
  title : String
  date_time : String
  location : String
  description : String
  event_url : String
deriving DecidableEq

abbrev CityEvents := List (String × List Event)

abbrev EventCache := List (String × CityEvents)

inductive DescOutcome where
  | found (text : String)
  | missing
  | raised
deriving DecidableEq

structure EventWorld where
  scrape : String → CityEvents
  descFetch : String → DescOutcome

def VALID_CATEGORIES : List String :=
  ["disco", "konzert", "theater", "medien", "sonstige",
   "kino", "literatur", "comedy", "vortrag", "kunst"]

def cacheKey (city : String) (epoch : Nat) : String :=
  city.toLower ++ "_" ++ toString epoch

def quoteChar : String := String.singleton (Char.ofNat 39)

def invalidCategoryMsg (category : String) : String :=
  "Invalid category " ++ quoteChar ++ category ++ quoteChar ++
    ". Valid categories: " ++ String.intercalate ", " VALID_CATEGORIES

inductive EventsReturn where
  | errorPayload (error : String)
  | events (evs : List Event)
deriving DecidableEq

/-- Model of `_add_descriptions_to_events` per event (lines 117-175): events without a
URL are skipped; a fetched description is truncated to 300 characters; a
missing description div and a raised per-event fetch degrade to placeholder
strings.  Cinema events are skipped wholesale. -/
def describeEvent (dw : String → DescOutcome) (e : Event) : Event :=
  if e.event_url = "" then e
  else
    match dw e.event_url with
    | .raised => { e with description := "Description could not be loaded" }
    | .missing => { e with description := "No description available" }
    | .found t =>
      { e with description := if t.length > 300 then t.take 300 ++ "..." else t }

def addDescriptions (dw : String → DescOutcome) (category : String)
    (evs : List Event) : List Event :=
  if category = "kino" then evs else evs.map (describeEvent dw)

/-- Model of `get_events_by_category` (lines 33-77).  The category is validated before
any cache access.  `category_events` is a slice (a fresh list of the same
event dicts), so the in-place description enrichment is also visible through
the cached entry; that aliasing is modelled by re-inserting the enriched
prefix into the cached category list. -/
def get_events_by_category (w : EventWorld) (epoch : Nat) (cache : EventCache)
    (city category : String) (max_events : Nat)
    (include_descriptions force_refresh : Bool) : EventsReturn × EventCache × Nat :=
  if category ∈ VALID_CATEGORIES then
    let key := cacheKey city epoch
    if force_refresh || (lookupA cache key).isNone then
      let all := w.scrape city
      let category_events := ((lookupA all category).getD []).take max_events
      if include_descriptions && !category_events.isEmpty then
        let enriched := addDescriptions w.descFetch category category_events
        let all2 := insertA all category
          (enriched ++ ((lookupA all category).getD []).drop max_events)
        (.events enriched, insertA cache key all2, 1)
      else (.events category_events, insertA cache key all, 1)
    else
      let all := (lookupA cache key).getD []
      let category_events := ((lookupA all category).getD []).take max_events
      if include_descriptions && !category_events.isEmpty then
        let enriched := addDescriptions w.descFetch category category_events
        let all2 := insertA all category
          (enriched ++ ((lookupA all category).getD []).drop max_events)
        (.events enriched, insertA cache key all2, 0)
      else (.events category_events, cache, 0)
  else
    (.errorPayload (invalidCategoryMsg category), cache, 0)

/-- Model of `get_available_categories` (lines 79-98): scrape on a cache miss, then
count the events of every non-empty category. -/
def get_available_categories (w : EventWorld) (epoch : Nat) (cache : EventCache)
    (city : String) : (List (String × Nat)) × EventCache × Nat :=
  let key := cacheKey city epoch
  match lookupA cache key with
  | none =>
    let all := w.scrape city
    ((all.filter (fun p => !p.2.isEmpty)).map (fun p => (p.1, p.2.length)),
      insertA cache key all, 1)
  | some all =>
    ((all.filter (fun p => !p.2.isEmpty)).map (fun p => (p.1, p.2.length)), cache, 0)

/-- Model of `add_descriptions_to_events` (lines 100-115). -/
def add_descriptions_to_events (w : EventWorld) (epoch : Nat) (cache : EventCache)
    (city category : String) (max_events : Nat) (force_refresh : Bool) :
    EventsReturn × EventCache × Nat :=
  get_events_by_category w epoch cache city category max_events true force_refresh

/-- Model of `get_events_with_descriptions` (lines 346-354). -/
def get_events_with_descriptions (w : EventWorld) (epoch : Nat) (cache : EventCache)
    (city category : String) (max_events : Nat) (force_refresh : Bool) :
    EventsReturn × EventCache × Nat :=
  add_descriptions_to_events w epoch cache city category max_events force_refresh

structure DetailedEventsSuccess where
  city : String
  category : String
  total_events : Nat
  events : List (Nat × Event)
deriving DecidableEq

inductive DetailedEventsReturn where
  | errorPayload (error : String)
  | success (s : DetailedEventsSuccess)
deriving DecidableEq

/-- The `get_detailed_events_tool` tool wrapper (agent.py, lines 97-156): it
always calls `get_events_with_descriptions` with `force_refresh=True` — the
flag is not part of the tool interface — and re-numbers the events. -/
def get_detailed_events_tool (w : EventWorld) (epoch : Nat) (cache : EventCache)
    (city category : String) (max_events : Nat) :
    DetailedEventsReturn × EventCache × Nat :=
  let r := get_events_with_descriptions w epoch cache city category max_events true
  match r.1 with
  | .errorPayload e => (.errorPayload e, r.2.1, r.2.2)
  | .events evs =>
    (.success ⟨city, category, evs.length, evs.enum.map (fun p => (p.1 + 1, p.2))⟩,
      r.2.1, r.2.2)

inductive CategoriesReturn where
  | success (city : String) (available_categories : List (String × Nat))
  | errorPayload (error : String)
deriving DecidableEq

/-- The `get_available_event_categories` tool wrapper (agent.py, lines
158-196): its whole body runs under a catch-all try/except.  `inner` is the
outcome of the `EventScraperTool.get_available_categories(city)` call
(`.error` = an exception raised inside it, e.g. by webdriver construction in
the scraper); a raised call becomes the error payload `str(e)`, an empty
count dict (falsy) the no-categories error, a non-empty one the success
payload. -/
def get_available_event_categories (city : String)
    (inner : Except String (List (String × Nat))) : CategoriesReturn :=
  match inner with
  | .error e => .errorPayload e
  | .ok categories =>
    if categories.isEmpty then
      .errorPayload ("No event categories found for " ++ city)
    else
      .success city categories

/-- The `web_search` tool (agent.py, lines 199-218): its whole body runs
under a catch-all try/except.  `outcome` is the external Tavily call
(`.error` = an exception raised by client construction or the search;
`.ok results` the parsed result list, one optional content string per
result); any failure becomes the textual error message, success joins the
first three content strings. -/
def web_search (query : String) (outcome : Except String (List (Option String))) :
    String :=
  match outcome with
  | .error e => "Web search failed: " ++ e
  | .ok results =>
    String.intercalate "\n\n" ((results.map (fun r => r.getD "")).take 3)

/-! ## Auxiliary lemmas used by the claim theorems -/

theorem getUniqueNamesAux_length (ns : List String) :
    ∀ counts, (getUniqueNamesAux ns counts).length = ns.length := by
  induction ns with
  | nil => intro counts; rfl
  | cons n rest ih =>
    intro counts
    cases h : lookupA counts n <;> simp [getUniqueNamesAux, h, ih]

theorem getUniqueNames_length (ns : List String) :
    (getUniqueNames ns).length = ns.length :=
  getUniqueNamesAux_length ns []

theorem lookupA_foldl_insertA_of_not_mem {α : Type} (f : String → α)
    (names : List String) (nm : String) (h : nm ∉ names) :
    ∀ acc, lookupA (names.foldl (fun a n => insertA a n (f n)) acc) nm = lookupA acc nm := by
  induction names with
  | nil => intro acc; rfl
  | cons n rest ih =>
    intro acc
    simp only [List.mem_cons] at h
    push_neg at h
    rw [List.foldl_cons, ih h.2, lookupA_insertA_ne _ _ _ _ (fun hh => h.1 hh.symm)]

theorem lookupA_foldl_insertA_of_mem {α : Type} (f : String → α)
    (names : List String) (nm : String) (h : nm ∈ names) :
    ∀ acc, lookupA (names.foldl (fun a n => insertA a n (f n)) acc) nm = some (f nm) := by
  induction names with
  | nil => cases h
  | cons n rest ih =>
    intro acc
    rw [List.foldl_cons]
    by_cases hr : nm ∈ rest
    · exact ih hr _
    · have hn : n = nm := by
        rcases List.mem_cons.mp h with h1 | h1
        · exact h1.symm
        · exact absurd h1 hr
      subst hn
      rw [lookupA_foldl_insertA_of_not_mem f rest n hr, lookupA_insertA_self]

theorem lookupA_map_values {α β : Type} (g : String → α → β)
    (l : List (String × α)) (nm : String) :
    lookupA (l.map (fun p => (p.1, g p.1 p.2))) nm
      = Option.map (g nm) (lookupA l nm) := by
  induction l with
  | nil => rfl
  | cons p rest ih =>
    by_cases h : p.1 = nm
    · subst h; simp [lookupA]
    · simp [lookupA, h, ih]

theorem buildPDAux_not_mem (dw : String → DetailFetchOutcome)
    (pairs : List (Option String × String)) (nm : String)
    (h : nm ∉ pairs.map Prod.snd) :
    ∀ acc, lookupA (buildPDAux dw acc pairs) nm = lookupA acc nm := by
  induction pairs with
  | nil => intro acc; rfl
  | cons q rest ih =>
    intro acc
    obtain ⟨pid, name⟩ := q
    simp only [List.map_cons, List.mem_cons] at h
    push_neg at h
    simp only [buildPDAux]
    rw [ih h.2]
    cases pid with
    | none => rfl
    | some p =>
      by_cases hp : p = ""
      · simp [hp]
      · simp [hp, lookupA_insertA_ne _ _ _ _ (fun hh => h.1 hh.symm)]

theorem buildPDAux_lookup (dw : String → DetailFetchOutcome)
    (pairs : List (Option String × String)) (pid : Option String) (nm : String)
    (hnd : (pairs.map Prod.snd).Nodup) (hmem : (pid, nm) ∈ pairs) :
    ∀ acc, lookupA (buildPDAux dw acc pairs) nm
      = (match pid with
         | some p => if p = "" then lookupA acc nm else some (detailsOf (dw p))
         | none => lookupA acc nm) := by
  induction pairs with
  | nil => cases hmem
  | cons q rest ih =>
    intro acc
    obtain ⟨pq, nq⟩ := q
    simp only [List.map_cons, List.nodup_cons] at hnd
    rcases List.mem_cons.mp hmem with heq | hmem2
    · cases heq
      simp only [buildPDAux]
      rw [buildPDAux_not_mem dw rest nm hnd.1]
      cases pid with
      | none => rfl
      | some p =>
        by_cases hp : p = ""
        · simp [hp]
        · simp [hp, lookupA_insertA_self]
    · have hne : nq ≠ nm := by
        intro hq
        exact hnd.1 (hq ▸ (List.mem_map.mpr ⟨(pid, nm), hmem2, rfl⟩))
      simp only [buildPDAux]
      rw [ih hnd.2 hmem2]
      cases pid with
      | none =>
        cases pq with
        | none => rfl
        | some p =>
          by_cases hp : p = ""
          · simp [hp]
          · simp [hp, lookupA_insertA_ne _ _ _ _ hne]
      | some p2 =>
        by_cases hp2 : p2 = ""
        · simp only [hp2, if_pos rfl]
          cases pq with
          | none => rfl
          | some p =>
            by_cases hp : p = ""
            · simp [hp]
            · simp [hp, lookupA_insertA_ne _ _ _ _ hne]
        · simp [hp2]

theorem vc_keys_aux (pd : List (String × PlaceDetails)) (names : List String)
    (nm : String) :
    ∀ acc, nm ∈ (names.foldl (vcStep pd) acc).map Prod.fst →
      nm ∈ acc.map Prod.fst ∨
        ∃ loc, ((lookupA pd nm).getD emptyDetails).location = some loc := by
  induction names with
  | nil => intro acc h; exact Or.inl h
  | cons n rest ih =>
    intro acc h
    rcases ih (vcStep pd acc n) h with h2 | h2
    · unfold vcStep at h2
      split at h2
      · rename_i loc hl
        split at h2
        · split at h2
          · exact Or.inl h2
          · simp only [List.map_append, List.map_cons, List.map_nil,
              List.mem_append, List.mem_cons, List.not_mem_nil, or_false] at h2
            rcases h2 with h2 | h2
            · exact Or.inl h2
            · exact Or.inr ⟨loc, by rw [h2]; exact hl⟩
        · exact Or.inl h2
      · exact Or.inl h2
    · exact Or.inr h2

theorem buildValidCoords_keys (pd : List (String × PlaceDetails))
    (names : List String) (nm : String)
    (h : nm ∈ (buildValidCoords pd names).map Prod.fst) :
    ∃ loc, ((lookupA pd nm).getD emptyDetails).location = some loc := by
  rcases vc_keys_aux pd names nm [] h with h2 | h2
  · cases h2
  · exact h2

theorem matchDistances_keys (ns : List String) :
    ∀ es, (matchDistances ns es).map Prod.fst = ns := by
  induction ns with
  | nil => intro es; rfl
  | cons n rest ih => intro es; cases es <;> simp [matchDistances, ih]

theorem computeDistances_keys (w : DistanceOutcome) (vc : List (String × RawLoc))
    (nm : String) (h : nm ∈ (computeDistances w vc).map Prod.fst) :
    nm ∈ vc.map Prod.fst := by
  unfold computeDistances at h
  by_cases he : vc.isEmpty = true
  · rw [if_pos he] at h; cases h
  · rw [if_neg (by simpa using he)] at h
    cases w with
    | raised e => simpa using h
    | result status rows =>
      dsimp only at h
      by_cases hs : status = "OK"
      · rw [if_pos hs] at h
        cases rows with
        | nil => simpa using h
        | cons row rest => rwa [matchDistances_keys (vc.map Prod.fst) row] at h
      · rw [if_neg hs] at h; simpa using h

theorem zip_getElem? {α β : Type} (l : List α) (l2 : List β) (i : Nat) (a : α) (b : β)
    (ha : l[i]? = some a) (hb : l2[i]? = some b) :
    (l.zip l2)[i]? = some (a, b) := by
  induction l generalizing l2 i with
  | nil => simp at ha
  | cons x xs ih =>
    cases l2 with
    | nil => simp at hb
    | cons y ys =>
      cases i with
      | zero =>
        simp only [List.getElem?_cons_zero, Option.some.injEq] at ha hb
        simp [List.zip_cons_cons, ha, hb]
      | succ n =>
        simp only [List.getElem?_cons_succ] at ha hb
        simpa [List.zip_cons_cons] using ih ys n ha hb

theorem zip_map_snd {α β : Type} (l : List α) (l2 : List β) (h : l.length = l2.length) :
    (l.zip l2).map Prod.snd = l2 := by
  induction l generalizing l2 with
  | nil =>
    cases l2 with
    | nil => rfl
    | cons y ys => cases h
  | cons x xs ih =>
    cases l2 with
    | nil => cases h
    | cons y ys =>
      simp only [List.length_cons, Nat.succ.injEq] at h
      simp [List.zip_cons_cons, ih ys h]

/-! ## Concrete collaborators used by counterexamples and witnesses -/

def idleSummarizer : SummarizerWorld := ⟨false, none, fun _ => none⟩

def emptySearchWorld : NearbyWorld :=
  ⟨.ok [], fun _ => .failed, .raised "x", idleSummarizer⟩

def raisedSearchWorld : NearbyWorld :=
  ⟨.raised "boom", fun _ => .failed, .raised "x", idleSummarizer⟩

def isSuccessPayload : Except String NearbyReturn → Bool
  | .ok (.success _) => true
  | _ => false

/-! ## Claim theorems -/

/-- C4: for every input weather code, `interpret_weather_code` returns the
mapped description when the code is one of the mapped keys, and exactly
"Unknown weather condition" for every other input, including a missing
(`None`) code; it never fails. -/
theorem c4_weather_code_lookup :
    (∀ c d, (c, d) ∈ weatherConditions → interpret_weather_code (some c) = d) ∧
    (∀ c, c ∉ weatherConditions.map Prod.fst →
      interpret_weather_code (some c) = "Unknown weather condition") ∧
    interpret_weather_code none = "Unknown weather condition" := by
  refine ⟨?_, ?_, rfl⟩
  · intro c d h
    fin_cases h <;> rfl
  · intro c h
    simp [interpret_weather_code, lookupCode_eq_none weatherConditions c h]

/-- Witness for C4: the mapped code 95 and the unmapped code 1000. -/
theorem c4_weather_code_lookup_witness :
    interpret_weather_code (some 95) = "Thunderstorm" ∧
    interpret_weather_code (some 1000) = "Unknown weather condition" ∧
    interpret_weather_code none = "Unknown weather condition" :=
  ⟨c4_weather_code_lookup.1 95 "Thunderstorm" (by decide),
   c4_weather_code_lookup.2.1 1000 (by decide),
   c4_weather_code_lookup.2.2⟩

/-- C3 (corrected): the amended propagation behaviour.  The place-search
tool wrapper catches the exception re-raised by `find_nearby_places`, and
the event-categories and web-search tool wrappers catch every fault raised
inside their bodies, all converting it into an error payload (a plain text
error for web_search); the weather adapter converts a parsed non-2xx
response into an error payload, but a raised transport call or a malformed
JSON body propagates out of it as an exception. -/
theorem c3_weather_fault_propagation :
    (∀ e, get_weather (.raised e) = .error e) ∧
    (∀ st e, get_weather (.response st (.malformed e)) = .error e) ∧
    (∀ st w, st ≠ 200 →
      get_weather (.response st (.parsed w))
        = .ok (.errorPayload (w.error.getD "Unknown error") st)) ∧
    (∀ (key : String) (nw : NearbyWorld) (lat lng : Int) (topics : String)
        (radius maxp : Nat) (opn : Bool) (e : String),
      key ≠ "" → nw.search = .raised e →
      nearby_place_search (some key) nw lat lng topics radius maxp opn
        = .errorPayload ("Failed to search nearby places: "
            ++ ("Failed to search for nearby places: " ++ e))) ∧
    (∀ city e, get_available_event_categories city (.error e) = .errorPayload e) ∧
    (∀ query e, web_search query (.error e) = "Web search failed: " ++ e) := by
  refine ⟨fun e => rfl, fun st e => rfl, ?_, ?_, fun city e => rfl, fun query e => rfl⟩
  · intro st w h
    simp [get_weather, h]
  · intro key nw lat lng topics radius maxp opn e hk hs
    simp [nearby_place_search, hk, find_nearby_places, hs]

/-- Witness for the amended C3 theorem: a raised request, a malformed body, a
404 response, the place-search wrapper absorbing a raised search, and the
event-categories and web-search wrappers absorbing raised calls. -/
theorem c3_weather_fault_propagation_witness :
    get_weather (.raised "ConnectionError") = .error "ConnectionError" ∧
    get_weather (.response 500 (.malformed "JSONDecodeError")) = .error "JSONDecodeError" ∧
    get_weather (.response 404 (.parsed ⟨none, some "Not Found"⟩))
      = .ok (.errorPayload "Not Found" 404) ∧
    nearby_place_search (some "k") raisedSearchWorld 1 2 "t" 5 5 true
      = .errorPayload ("Failed to search nearby places: "
          ++ ("Failed to search for nearby places: " ++ "boom")) ∧
    get_available_event_categories "Berlin" (.error "WebDriverException")
      = .errorPayload "WebDriverException" ∧
    web_search "news" (.error "Timeout")
      = "Web search failed: " ++ "Timeout" :=
  ⟨c3_weather_fault_propagation.1 "ConnectionError",
   c3_weather_fault_propagation.2.1 500 "JSONDecodeError",
   c3_weather_fault_propagation.2.2.1 404 ⟨none, some "Not Found"⟩ (by decide),
   c3_weather_fault_propagation.2.2.2.1 "k" raisedSearchWorld 1 2 "t" 5 5 true "boom"
     (by decide) rfl,
   c3_weather_fault_propagation.2.2.2.2.1 "Berlin" "WebDriverException",
   c3_weather_fault_propagation.2.2.2.2.2 "news" "Timeout"⟩

/-- C3 counterexample: a transport fault inside the weather adapter is not
returned as an error payload — it propagates as a raised exception. -/
theorem c3_counterexample :
    get_weather (.raised "requests.exceptions.ConnectionError")
      = .error "requests.exceptions.ConnectionError" := rfl

/-- C2 (corrected): when the truncated nearby-search result list is empty —
including `max_results = 0` — `find_nearby_places` returns the error payload
the error payload with message `No places found matching your criteria`, not a success payload
with an empty place list. -/
theorem c2_zero_results_error_payload (w : NearbyWorld) (lat lng : Int)
    (topics : String) (radius maxp : Nat) (opn : Bool) (results : List RawPlace)
    (hs : w.search = .ok results) (hz : (results.take maxp).isEmpty = true) :
    find_nearby_places w lat lng topics radius maxp opn
      = .ok (.errorPayload "No places found matching your criteria") := by
  simp [find_nearby_places, hs, hz]

/-- Witness for the amended C2 theorem at a zero-match upstream search. -/
theorem c2_zero_results_error_payload_witness :
    find_nearby_places emptySearchWorld 52 13 "food" 1000 10 true
      = .ok (.errorPayload "No places found matching your criteria") :=
  c2_zero_results_error_payload emptySearchWorld 52 13 "food" 1000 10 true [] rfl rfl

/-- C2 counterexample: with zero upstream matches the adapter returns an
error payload, not a success payload with an empty list. -/
theorem c2_counterexample :
    find_nearby_places emptySearchWorld 52 13 "food" 1000 10 true
      = .ok (.errorPayload "No places found matching your criteria") ∧
    isSuccessPayload (find_nearby_places emptySearchWorld 52 13 "food" 1000 10 true)
      = false := ⟨rfl, rfl⟩

/-- C7: an event-listing call with a category outside the fixed enumeration
returns an error payload listing the full valid category set, leaves the cache
untouched and performs zero scrapes. -/
theorem c7_invalid_category (w : EventWorld) (epoch : Nat) (cache : EventCache)
    (city category : String) (maxe : Nat) (incl fr : Bool)
    (h : category ∉ VALID_CATEGORIES) :
    get_events_by_category w epoch cache city category maxe incl fr
      = (.errorPayload (invalidCategoryMsg category), cache, 0) := by
  simp [get_events_by_category, h]

def nullEventWorld : EventWorld := ⟨fun _ => [], fun _ => .raised⟩

/-- Witness for C7 at the category "zzz". -/
theorem c7_invalid_category_witness :
    get_events_by_category nullEventWorld 0 [] "Berlin" "zzz" 5 true false
      = (.errorPayload (invalidCategoryMsg "zzz"), [], 0) :=
  c7_invalid_category nullEventWorld 0 [] "Berlin" "zzz" 5 true false (by decide)

/-- C5: every Reasoning step has exactly two outcomes.  Appending the model
message, `should_continue` routes to the terminal edge exactly when the
message carries zero tool calls — in which case the run returns that message
content as the final reply — and to the Acting node (`tool_node`, whose
results are appended before the next Reasoning call) otherwise. -/
theorem c5_reasoning_dichotomy (llm : List Message → Message)
    (invoke : String → String → Except String String) (fuel : Nat)
    (state : List Message) :
    should_continue (state ++ [llm state])
      = some (if (llm state).tool_calls.isEmpty then Route.stop else Route.action) ∧
    agentRun llm invoke (fuel + 1) state
      = (if (llm state).tool_calls.isEmpty then
          Except.ok ⟨state ++ [llm state], (llm state).content⟩
         else
          match tool_node invoke (state ++ [llm state]) with
          | .error e => .error e
          | .ok msgs => agentRun llm invoke fuel ((state ++ [llm state]) ++ msgs)) := by
  constructor
  · simp only [should_continue, List.getLast?_concat]
    by_cases h : (llm state).tool_calls.isEmpty <;> simp [h]
  · by_cases h : (llm state).tool_calls.isEmpty <;> simp [agentRun, h]

/-- C1 (corrected): a tool call whose name matches no registered tool makes
the Acting step raise an uncaught `KeyError` out of the dict subscript
`tools_by_name[name]`; no error Tool Result is produced and the loop run
aborts with that exception. -/
theorem c1_unknown_tool_raises (llm : List Message → Message)
    (invoke : String → String → Except String String) (fuel : Nat)
    (state : List Message) (cid cname cargs : String)
    (hname : cname ∉ registeredToolNames)
    (hllm : (llm state).tool_calls = [⟨cid, cname, cargs⟩]) :
    agentRun llm invoke (fuel + 1) state = .error ("KeyError: " ++ cname) := by
  simp [agentRun, hllm, tool_node, List.getLast?_concat, runToolCalls, hname]

def mkAssistant (calls : List ToolCall) : Message :=
  ⟨Role.assistant, "", calls, none⟩

def coffeeLlm : List Message → Message :=
  fun _ => mkAssistant [⟨"call_1", "make_coffee", "x"⟩]

def okInvoke : String → String → Except String String := fun _ _ => .ok "ok"

/-- Witness for the amended C1 theorem at a hallucinated tool name. -/
theorem c1_unknown_tool_raises_witness :
    agentRun coffeeLlm okInvoke 1 [] = .error ("KeyError: " ++ "make_coffee") :=
  c1_unknown_tool_raises coffeeLlm okInvoke 0 [] "call_1" "make_coffee" "x"
    (by decide) rfl

/-- C1 counterexample: dispatching the unregistered name `make_coffee` does
not yield a Tool Result message carrying an error payload — `tool_node`
raises, and the decision-loop run aborts instead of continuing. -/
theorem c1_counterexample :
    ("make_coffee" ∉ registeredToolNames) ∧
    runToolCalls okInvoke [⟨"call_1", "make_coffee", "x"⟩]
      = .error "KeyError: make_coffee" ∧
    agentRun coffeeLlm okInvoke 5 [] = .error "KeyError: make_coffee" :=
  ⟨by decide, rfl, rfl⟩

theorem runToolCalls_total (invoke : String → String → Except String String)
    (calls : List ToolCall)
    (hreg : ∀ c ∈ calls, c.name ∈ registeredToolNames)
    (hok : ∀ c ∈ calls, (invoke c.name c.args).isOk = true) :
    ∃ msgs, runToolCalls invoke calls = .ok msgs ∧
      msgs.length = calls.length ∧
      msgs.map Message.tool_call_id = calls.map (fun c => some c.id) ∧
      (∀ m ∈ msgs, m.role = Role.tool) ∧
      (∀ cid, msgs.countP (fun m => m.tool_call_id == some cid)
          = calls.countP (fun c => c.id == cid)) := by
  induction calls with
  | nil => exact ⟨[], rfl, rfl, rfl, by simp, fun _ => rfl⟩
  | cons c rest ih =>
    have hc := hreg c (List.mem_cons_self c rest)
    obtain ⟨obs, hobs⟩ : ∃ obs, invoke c.name c.args = .ok obs := by
      have hv := hok c (List.mem_cons_self c rest)
      cases he : invoke c.name c.args with
      | error e => rw [he] at hv; simp [Except.isOk, Except.toBool] at hv
      | ok o => exact ⟨o, rfl⟩
    obtain ⟨msgs, h1, h2, h3, h4, h5⟩ :=
      ih (fun x hx => hreg x (List.mem_cons_of_mem c hx))
        (fun x hx => hok x (List.mem_cons_of_mem c hx))
    refine ⟨toolMessage obs c.id :: msgs, ?_, ?_, ?_, ?_, ?_⟩
    · simp [runToolCalls, hc, hobs, h1]
    · simp [h2]
    · simp [toolMessage, h3]
    · intro m hm
      rcases List.mem_cons.mp hm with hm | hm
      · rw [hm]; rfl
      · exact h4 m hm
    · intro cid
      simp only [List.countP_cons, h5 cid, toolMessage]
      rfl

/-- C6 (corrected): when every requested name is registered AND every
invocation returns normally, the Acting step produces exactly one `tool`
message per tool call, in request order, carrying the matching
`tool_call_id` (each id resolved exactly once), and all of them are appended
to the state before the next Reasoning call.  The extra normal-return
hypothesis is needed because a registered tool (the weather adapter) can
itself raise. -/
theorem c6_tool_messages (llm : List Message → Message)
    (invoke : String → String → Except String String) (fuel : Nat)
    (state : List Message)
    (hreg : ∀ c ∈ (llm state).tool_calls, c.name ∈ registeredToolNames)
    (hok : ∀ c ∈ (llm state).tool_calls, (invoke c.name c.args).isOk = true) :
    ∃ msgs, runToolCalls invoke (llm state).tool_calls = .ok msgs ∧
      msgs.length = (llm state).tool_calls.length ∧
      msgs.map Message.tool_call_id = (llm state).tool_calls.map (fun c => some c.id) ∧
      (∀ m ∈ msgs, m.role = Role.tool) ∧
      (∀ cid, msgs.countP (fun m => m.tool_call_id == some cid)
          = (llm state).tool_calls.countP (fun c => c.id == cid)) ∧
      ((llm state).tool_calls.isEmpty = false →
        agentRun llm invoke (fuel + 1) state
          = agentRun llm invoke fuel ((state ++ [llm state]) ++ msgs)) := by
  obtain ⟨msgs, h1, h2, h3, h4, h5⟩ :=
    runToolCalls_total invoke (llm state).tool_calls hreg hok
  refine ⟨msgs, h1, h2, h3, h4, h5, ?_⟩
  intro hne
  simp [agentRun, hne, tool_node, List.getLast?_concat, h1]

def c6Llm : List Message → Message :=
  fun _ => mkAssistant [⟨"c1", "get_weather", "a"⟩, ⟨"c2", "web_search", "q"⟩]

/-- Witness for the amended C6 theorem: two registered, normally-returning
calls produce two tool messages that are appended before the next Reasoning
step. -/
theorem c6_tool_messages_witness :
    agentRun c6Llm okInvoke 1 []
      = agentRun c6Llm okInvoke 0
          (([] ++ [c6Llm []]) ++ [toolMessage "ok" "c1", toolMessage "ok" "c2"]) := by
  obtain ⟨msgs, h1, -, -, -, -, h6⟩ :=
    c6_tool_messages c6Llm okInvoke 0 [] (by decide) (fun c hc => rfl)
  have hM : runToolCalls okInvoke (c6Llm []).tool_calls
      = .ok [toolMessage "ok" "c1", toolMessage "ok" "c2"] := rfl
  rw [h1] at hM
  injection hM with hM2
  rw [← hM2]
  exact h6 rfl

def weatherDownInvoke : String → String → Except String String :=
  fun name _ =>
    if name = "get_weather" then
      match get_weather (WeatherHttpOutcome.raised "ConnectionError") with
      | .error e => .error e
      | .ok _ => .ok "ok"
    else .ok "ok"

/-- C6 counterexample: `get_weather` is registered, yet when its invocation
raises (a transport failure inside the adapter, which has no handler) the
Acting step aborts without appending any tool message, so an assistant
message whose names are all registered does not always get its tool results. -/
theorem c6_counterexample :
    ("get_weather" ∈ registeredToolNames) ∧
    runToolCalls weatherDownInvoke [⟨"call_1", "get_weather", "52.52,13.405"⟩]
      = .error "ConnectionError" :=
  ⟨by decide, rfl⟩

/-- C8: two event-category calls for the same city within the same cache
epoch return identical category counts, leave the cache where the first call
put it, and scrape at most once across the two calls. -/
theorem c8_category_idempotence (w : EventWorld) (epoch : Nat)
    (cache : EventCache) (city : String) :
    (get_available_categories w epoch
        (get_available_categories w epoch cache city).2.1 city).1
      = (get_available_categories w epoch cache city).1 ∧
    (get_available_categories w epoch
        (get_available_categories w epoch cache city).2.1 city).2.1
      = (get_available_categories w epoch cache city).2.1 ∧
    (get_available_categories w epoch cache city).2.2
      + (get_available_categories w epoch
          (get_available_categories w epoch cache city).2.1 city).2.2 ≤ 1 := by
  cases hl : lookupA cache (cacheKey city epoch) with
  | none => simp [get_available_categories, hl, lookupA_insertA_self]
  | some all => simp [get_available_categories, hl]

/-- C10 (corrected): the detailed-events tool always passes
`force_refresh=True`, so its result and the resulting cache slot never depend
on the prior cache contents; a valid category triggers exactly one fresh
scrape and overwrites the slot for (lower-cased city, epoch), while an
invalid category returns an error having performed zero scrapes and left the
cache untouched. -/
theorem gebc_fresh (w : EventWorld) (epoch : Nat) (cache : EventCache)
    (city category : String) (maxe : Nat) (incl : Bool)
    (hc : category ∈ VALID_CATEGORIES) :
    get_events_by_category w epoch cache city category maxe incl true
      = (if (incl && !(((lookupA (w.scrape city) category).getD []).take maxe).isEmpty) = true
         then
          (EventsReturn.events (addDescriptions w.descFetch category
              (((lookupA (w.scrape city) category).getD []).take maxe)),
            insertA cache (cacheKey city epoch)
              (insertA (w.scrape city) category
                (addDescriptions w.descFetch category
                    (((lookupA (w.scrape city) category).getD []).take maxe)
                  ++ ((lookupA (w.scrape city) category).getD []).drop maxe)), 1)
         else
          (EventsReturn.events (((lookupA (w.scrape city) category).getD []).take maxe),
            insertA cache (cacheKey city epoch) (w.scrape city), 1)) := by
  simp only [get_events_by_category, if_pos hc, Bool.true_or, if_true]

theorem c10_force_refresh (w : EventWorld) (epoch : Nat)
    (cache cache2 : EventCache) (city category : String) (maxe : Nat) :
    (get_detailed_events_tool w epoch cache city category maxe).1
      = (get_detailed_events_tool w epoch cache2 city category maxe).1 ∧
    (get_detailed_events_tool w epoch cache city category maxe).2.2
      = (if category ∈ VALID_CATEGORIES then 1 else 0) ∧
    (if category ∈ VALID_CATEGORIES then
      lookupA (get_detailed_events_tool w epoch cache city category maxe).2.1
          (cacheKey city epoch)
        = lookupA (get_detailed_events_tool w epoch cache2 city category maxe).2.1
            (cacheKey city epoch) ∧
      (lookupA (get_detailed_events_tool w epoch cache city category maxe).2.1
          (cacheKey city epoch)).isSome = true
     else
      (get_detailed_events_tool w epoch cache city category maxe).2.1 = cache) := by
  by_cases hc : category ∈ VALID_CATEGORIES
  · simp only [get_detailed_events_tool, get_events_with_descriptions,
      add_descriptions_to_events,
      gebc_fresh w epoch cache city category maxe true hc,
      gebc_fresh w epoch cache2 city category maxe true hc]
    by_cases he : (true && !(((lookupA (w.scrape city) category).getD []).take maxe).isEmpty)
        = true
    · simp [he, hc, lookupA_insertA_self]
    · simp [he, hc, lookupA_insertA_self]
  · simp [get_detailed_events_tool, get_events_with_descriptions,
      add_descriptions_to_events, get_events_by_category, hc]

def sampleEvent : Event := ⟨"Jazz Night", "15.06.2025, 20:00", "A-Trane", "", ""⟩

def warmCache : EventCache := [(cacheKey "Berlin" 0, [("konzert", [sampleEvent])])]

def berlinWorld : EventWorld :=
  ⟨fun _ => [("konzert", [sampleEvent])], fun _ => .raised⟩

/-- C10 counterexample: an invocation with an invalid category performs zero
scrapes and leaves the warm cache slot untouched, so not every invocation of
the detailed-events tool triggers a fresh scrape and overwrite. -/
theorem c10_counterexample :
    (get_detailed_events_tool berlinWorld 0 warmCache "Berlin" "zzz" 5).2.2 = 0 ∧
    (get_detailed_events_tool berlinWorld 0 warmCache "Berlin" "zzz" 5).2.1 = warmCache ∧
    (get_detailed_events_tool berlinWorld 0 warmCache "Berlin" "zzz" 5).1
      = .errorPayload (invalidCategoryMsg "zzz") :=
  ⟨rfl, rfl, rfl⟩

/-! ## C9: degraded detail fetches -/

def placesOf : Except String NearbyReturn → Option (List PlaceInfo)
  | .ok (.success l) => some l
  | _ => none

/-- A candidate whose details never arrive: its id is missing or falsy, or
the detail fetch for it fails after the retry budget. -/
def isFailedPlaceB (detail : String → DetailFetchOutcome) (p : RawPlace) : Bool :=
  match p.place_id with
  | none => true
  | some pid =>
    if pid = "" then true
    else
      match detail pid with
      | .failed => true
      | .ok _ => false

/-- The detail-derived fields of a degraded place record: no description, no
coordinates, no dine-in flag, zero reviews, no distance text and a degenerate
review summary. -/
def degradedFields (info : PlaceInfo) : Prop :=
  info.description = none ∧ info.coordinates = none ∧ info.dine_in = none ∧
  info.review_count = 0 ∧ info.distance = "Distance unavailable" ∧
  (info.review_summary = "No reviews available" ∨ info.review_summary = "")

theorem mem_of_getElem?A {α : Type} (l : List α) (i : Nat) (a : α)
    (h : l[i]? = some a) : a ∈ l := by
  induction l generalizing i with
  | nil => simp at h
  | cons x xs ih =>
    cases i with
    | zero =>
      simp only [List.getElem?_cons_zero, Option.some.injEq] at h
      exact h ▸ List.mem_cons_self x xs
    | succ n =>
      simp only [List.getElem?_cons_succ] at h
      exact List.mem_cons_of_mem x (ih n h)

theorem zip_map_snd_take {α β : Type} (l : List α) (l2 : List β) :
    (l.zip l2).map Prod.snd = l2.take l.length := by
  induction l generalizing l2 with
  | nil => simp
  | cons x xs ih =>
    cases l2 with
    | nil => simp
    | cons y ys => simp [List.zip_cons_cons, ih ys]

theorem assemblePlaces_length (w : NearbyWorld) (basic : List BasicInfo)
    (pids : List (Option String)) (uniq : List String) :
    (assemblePlaces w basic pids uniq).length = min basic.length uniq.length := by
  simp [assemblePlaces, buildFinalResults, List.length_map, List.length_zip]

theorem assemblePlaces_degraded (w : NearbyWorld) (basic : List BasicInfo)
    (pids : List (Option String)) (uniq : List String) (i : Nat)
    (b : BasicInfo) (pid : Option String) (nm : String) (info : PlaceInfo)
    (hnd : uniq.Nodup)
    (hb : basic[i]? = some b) (hpid : pids[i]? = some pid) (hnm : uniq[i]? = some nm)
    (hfail : pid = none ∨ pid = some "" ∨ ∃ s, pid = some s ∧ w.detail s = .failed)
    (hinfo : (assemblePlaces w basic pids uniq)[i]? = some info) :
    degradedFields info := by
  have hnmMem := mem_of_getElem?A _ i _ hnm
  have hzip2 : (pids.zip uniq)[i]? = some (pid, nm) := zip_getElem? _ _ i _ _ hpid hnm
  have hmem := mem_of_getElem?A _ i _ hzip2
  have hndPairs : ((pids.zip uniq).map Prod.snd).Nodup := by
    rw [zip_map_snd_take]
    exact hnd.sublist (List.take_sublist _ _)
  have hpdLookup :
      lookupA (buildPlaceDetails w.detail (pids.zip uniq)) nm = none ∨
      lookupA (buildPlaceDetails w.detail (pids.zip uniq)) nm = some emptyDetails := by
    unfold buildPlaceDetails
    rcases hfail with rfl | rfl | ⟨s, rfl, hds⟩
    · have h2 := buildPDAux_lookup w.detail (pids.zip uniq) none nm hndPairs hmem []
      dsimp only at h2
      left
      exact h2
    · have h2 := buildPDAux_lookup w.detail (pids.zip uniq) (some "") nm hndPairs hmem []
      dsimp only at h2
      rw [if_pos rfl] at h2
      left
      exact h2
    · have h2 := buildPDAux_lookup w.detail (pids.zip uniq) (some s) nm hndPairs hmem []
      dsimp only at h2
      by_cases hse : s = ""
      · rw [if_pos hse] at h2
        left
        exact h2
      · rw [if_neg hse, hds] at h2
        right
        rw [h2]
        rfl
  have hdet :
      (lookupA (buildPlaceDetails w.detail (pids.zip uniq)) nm).getD emptyDetails
        = emptyDetails := by
    rcases hpdLookup with h | h <;> rw [h] <;> rfl
  have hrbp :
      lookupA (reviewsByPlace (buildPlaceDetails w.detail (pids.zip uniq)) uniq) nm
        = some (reviewsOf (buildPlaceDetails w.detail (pids.zip uniq)) nm) := by
    unfold reviewsByPlace
    exact lookupA_foldl_insertA_of_mem _ _ nm hnmMem []
  have hrev : reviewsOf (buildPlaceDetails w.detail (pids.zip uniq)) nm = [] := by
    unfold reviewsOf
    rw [hdet]
    rfl
  have hvc :
      lookupA (computeDistances w.distance
        (buildValidCoords (buildPlaceDetails w.detail (pids.zip uniq)) uniq)) nm
        = none := by
    apply lookupA_eq_none
    intro hkey
    rcases buildValidCoords_keys _ _ nm (computeDistances_keys w.distance _ nm hkey)
      with ⟨loc, hloc⟩
    rw [hdet] at hloc
    exact Option.noConfusion hloc
  have hsum :
      lookupA (summarizeReviews w.summarizer
        (reviewsByPlace (buildPlaceDetails w.detail (pids.zip uniq)) uniq)) nm
        = some (summOne w.summarizer []) := by
    have h3 := lookupA_map_values (fun _ revs => summOne w.summarizer revs)
      (reviewsByPlace (buildPlaceDetails w.detail (pids.zip uniq)) uniq) nm
    rw [hrbp, hrev] at h3
    unfold summarizeReviews
    exact h3
  have hsummOne :
      summOne w.summarizer [] = "No reviews available" ∨ summOne w.summarizer [] = "" := by
    rcases w.summarizer with ⟨avail, filt, ls⟩
    cases avail
    · left; rfl
    · cases filt
      · right; rfl
      · left; rfl
  have hzipB : (basic.zip uniq)[i]? = some (b, nm) := zip_getElem? _ _ i _ _ hb hnm
  simp only [assemblePlaces, buildFinalResults] at hinfo
  rw [List.getElem?_map, List.getElem?_map, hzipB] at hinfo
  simp only [Option.map_some'] at hinfo
  injection hinfo with hinfoEq
  subst hinfoEq
  refine ⟨?_, ?_, ?_, ?_, ?_, ?_⟩
  · show ((lookupA _ nm).getD emptyDetails).editorial_overview = none
    rw [hdet]
    rfl
  · show ((lookupA _ nm).getD emptyDetails).location = none
    rw [hdet]
    rfl
  · show ((lookupA _ nm).getD emptyDetails).dine_in = none
    rw [hdet]
    rfl
  · show ((lookupA _ nm).getD []).length = 0
    rw [hrbp, hrev]
    rfl
  · show (lookupA _ nm).getD "Distance unavailable" = "Distance unavailable"
    rw [hvc]
    rfl
  · show (lookupA _ nm).getD "No reviews available" = "No reviews available" ∨
      (lookupA _ nm).getD "No reviews available" = ""
    rw [hsum]
    exact hsummOne

/-- C9 (corrected): provided the de-duplicated display names are pairwise
distinct, a place-search call over n candidates still returns all n places,
and every candidate whose detail fetch failed (or that has no usable place
id) carries empty detail-derived fields.  (The "exactly" of the original
claim fails: a successful fetch can also return an empty record, and
colliding display names can leak details across candidates — see the
counterexample.) -/
theorem c9_degraded_details (w : NearbyWorld) (lat lng : Int) (topics : String)
    (radius maxp : Nat) (opn : Bool) (results : List RawPlace)
    (hs : w.search = .ok results)
    (hne : (results.take maxp).isEmpty = false)
    (hnd : (getUniqueNames ((results.take maxp).map (fun p => p.name.getD "Unknown"))).Nodup) :
    placesOf (find_nearby_places w lat lng topics radius maxp opn)
      = some (nearbyPlacesList w (results.take maxp)) ∧
    (nearbyPlacesList w (results.take maxp)).length = (results.take maxp).length ∧
    (∀ (i : Nat) (p : RawPlace) (info : PlaceInfo),
      (results.take maxp)[i]? = some p →
      (nearbyPlacesList w (results.take maxp))[i]? = some info →
      isFailedPlaceB w.detail p = true → degradedFields info) := by
  have hbn :
      ((results.take maxp).map (fun p =>
          (⟨p.name.getD "Unknown", p.rating, p.price_level, p.place_id⟩ : BasicInfo))).map
        (fun b => b.name)
      = (results.take maxp).map (fun p => p.name.getD "Unknown") := by
    rw [List.map_map]; rfl
  have hul :
      (getUniqueNames (((results.take maxp).map (fun p =>
          (⟨p.name.getD "Unknown", p.rating, p.price_level, p.place_id⟩ : BasicInfo))).map
        (fun b => b.name))).length = (results.take maxp).length := by
    rw [hbn, getUniqueNames_length, List.length_map]
  refine ⟨?_, ?_, ?_⟩
  · simp [find_nearby_places, hs, hne, placesOf]
  · simp only [nearbyPlacesList]
    rw [assemblePlaces_length, hul, List.length_map, Nat.min_self]
  · intro i p info hp hinfo hfail
    have hi : i < (results.take maxp).length := by
      rcases Nat.lt_or_ge i (results.take maxp).length with h | h
      · exact h
      · rw [List.getElem?_eq_none h] at hp; cases hp
    have hbasic :
        ((results.take maxp).map (fun p =>
          (⟨p.name.getD "Unknown", p.rating, p.price_level, p.place_id⟩ : BasicInfo)))[i]?
          = some ⟨p.name.getD "Unknown", p.rating, p.price_level, p.place_id⟩ := by
      rw [List.getElem?_map, hp]; rfl
    have hpid : ((results.take maxp).map (fun p => p.place_id))[i]? = some p.place_id := by
      rw [List.getElem?_map, hp]; rfl
    obtain ⟨nm, hnm⟩ :
        ∃ nm, (getUniqueNames (((results.take maxp).map (fun p =>
            (⟨p.name.getD "Unknown", p.rating, p.price_level, p.place_id⟩ : BasicInfo))).map
          (fun b => b.name)))[i]? = some nm := by
      cases h : (getUniqueNames (((results.take maxp).map (fun p =>
          (⟨p.name.getD "Unknown", p.rating, p.price_level, p.place_id⟩ : BasicInfo))).map
        (fun b => b.name)))[i]? with
      | none =>
        rw [List.getElem?_eq_none_iff, hul] at h
        omega
      | some nm => exact ⟨nm, rfl⟩
    have hndUniq :
        (getUniqueNames (((results.take maxp).map (fun p =>
            (⟨p.name.getD "Unknown", p.rating, p.price_level, p.place_id⟩ : BasicInfo))).map
          (fun b => b.name))).Nodup := by
      rw [hbn]; exact hnd
    have hfd : p.place_id = none ∨ p.place_id = some "" ∨
        ∃ s, p.place_id = some s ∧ w.detail s = .failed := by
      unfold isFailedPlaceB at hfail
      cases hpidv : p.place_id with
      | none => exact Or.inl rfl
      | some pid =>
        rw [hpidv] at hfail
        dsimp only at hfail
        by_cases hpe : pid = ""
        · exact Or.inr (Or.inl (by rw [hpe]))
        · rw [if_neg hpe] at hfail
          cases hd : w.detail pid with
          | failed => exact Or.inr (Or.inr ⟨pid, rfl, hd⟩)
          | ok d => rw [hd] at hfail; simp at hfail
    have hinfo2 :
        (assemblePlaces w
          ((results.take maxp).map (fun p =>
            (⟨p.name.getD "Unknown", p.rating, p.price_level, p.place_id⟩ : BasicInfo)))
          ((results.take maxp).map (fun p => p.place_id))
          (getUniqueNames (((results.take maxp).map (fun p =>
            (⟨p.name.getD "Unknown", p.rating, p.price_level, p.place_id⟩ : BasicInfo))).map
            (fun b => b.name))))[i]? = some info := hinfo
    exact assemblePlaces_degraded w _ _ _ i _ p.place_id nm info
      hndUniq hbasic hpid hnm hfd hinfo2

def failResults : List RawPlace :=
  [⟨some "A", some 4, none, some "pa"⟩, ⟨some "B", none, none, some "pb"⟩]

def failWorld : NearbyWorld :=
  ⟨.ok failResults,
   fun pid => if pid = "pa" then .failed
              else .ok ⟨["nice"], some "desc", some ⟨some 1, some 2⟩, some true⟩,
   .result "OK" [[⟨some "OK", some "300 m"⟩]], idleSummarizer⟩

/-- Witness for the amended C9 theorem: two candidates, the detail fetch for
the first one failing; both places are returned and the failed one carries
only degraded detail fields. -/
theorem c9_degraded_details_witness :
    (nearbyPlacesList failWorld (failResults.take 10)).length = 2 ∧
    degradedFields ⟨"A", some 4, none, some "pa",
      some "https://www.google.com/maps?q=place_id:pa", "Distance unavailable",
      none, none, none, 0, "No reviews available"⟩ := by
  obtain ⟨-, h2, h3⟩ :=
    c9_degraded_details failWorld 0 0 "food" 1000 10 true failResults rfl rfl (by decide)
  exact ⟨h2.trans rfl, h3 0 ⟨some "A", some 4, none, some "pa"⟩ _ rfl rfl rfl⟩

def emptyDetailWorld : NearbyWorld :=
  ⟨.ok [⟨some "A", some 4, some 2, some "p1"⟩],
   fun _ => .ok emptyDetails, .raised "x", idleSummarizer⟩

def leakDetails : PlaceDetails := ⟨[], some "leaked", none, none⟩

def collideWorld : NearbyWorld :=
  ⟨.ok [⟨some "x (2)", none, none, some "a"⟩,
        ⟨some "x", none, none, some "b"⟩,
        ⟨some "x", none, none, some "c"⟩],
   fun pid => if pid = "a" then .failed
              else if pid = "b" then .ok emptyDetails
              else .ok leakDetails,
   .raised "x", idleSummarizer⟩

/-- C9 counterexample, refuting the "empty detail fields exactly for the k
failed candidates" reading on two sides.  First: a successful detail fetch
that returns an empty record (zero failed candidates) still yields empty
detail fields.  Second: with display names that collide after de-duplication
(`x (2)`, `x`, `x`), the details dict entry of the candidate whose fetch
failed is overwritten by a later same-named candidate, so the failed
candidate reports a non-empty description. -/
theorem c9_counterexample :
    (emptyDetailWorld.detail "p1" = .ok emptyDetails ∧
      ((placesOf (find_nearby_places emptyDetailWorld 0 0 "t" 10 10 true)).getD []).map
          (fun q => q.description) = [none]) ∧
    (collideWorld.detail "a" = .failed ∧
      (((placesOf (find_nearby_places collideWorld 0 0 "t" 10 10 true)).getD []).map
          (fun q => q.description))[0]? = some (some "leaked")) :=
  ⟨⟨rfl, rfl⟩, ⟨rfl, rfl⟩⟩

end TravelGuide
